import Mathlib

/-!
Verification of the mqtt-simulator value model, binary serializer, config
parser and watcher/publisher coordination (src/data.rs, src/main.rs).

Machine integers are modelled as Nat / Int with explicit reduction modulo
2 ^ w where the source truncates; byte sequences are lists of naturals
below 256; 64-bit floating point payloads are carried as their IEEE-754
bit patterns.
-/

/-- Byte order parameter (data.rs, enum Endian). Default is BigEndian. -/
inductive Endian
  | LittleEndian
  | BigEndian
deriving DecidableEq

def Endian.default : Endian := Endian.BigEndian

/-- Integer width parameter (data.rs, enum IntWidth). Default is Sixtyfour. -/
inductive IntWidth
  | Eight
  | Sixteen
  | Thirtytwo
  | Sixtyfour
deriving DecidableEq

def IntWidth.default : IntWidth := IntWidth.Sixtyfour

/-- Number of bytes written for each integer width (the source encodes this
in the return types of the to_le_bytes / to_be_bytes calls). -/
def IntWidth.bytes : IntWidth → Nat
  | IntWidth.Eight => 1
  | IntWidth.Sixteen => 2
  | IntWidth.Thirtytwo => 4
  | IntWidth.Sixtyfour => 8

/-- Float width parameter (data.rs, enum FloatWidth). Default is Sixtyfour. -/
inductive FloatWidth
  | Thirtytwo
  | Sixtyfour
deriving DecidableEq

def FloatWidth.default : FloatWidth := FloatWidth.Sixtyfour

/-- String encoding parameter (data.rs, enum StringEncoding). Default UTF8. -/
inductive StringEncoding
  | UTF8
  | UTF16BE
  | UTF16LE
deriving DecidableEq

def StringEncoding.default : StringEncoding := StringEncoding.UTF8

/-- JSON numbers as held by serde_json: a non-negative 64-bit integer, a
negative 64-bit integer, or a double (carried as its IEEE-754 bit pattern). -/
inductive JNumber
  | pos (n : Nat)
  | neg (i : Int)
  | float (bits : Nat)
deriving DecidableEq

/-- JSON documents (serde_json::Value). Object fields are kept as an ordered
association list. -/
inductive Json
  | null
  | bool (b : Bool)
  | num (n : JNumber)
  | str (s : String)
  | arr (xs : List Json)
  | obj (fields : List (String × Json))

/-- The value model (data.rs, enum Value), variants in declared order.
Float payloads are carried as IEEE-754 double bit patterns. -/
inductive Value
  | bool (b : Bool)
  | uint (value : Nat) (endian : Endian) (width : IntWidth)
  | int (value : Int) (endian : Endian) (width : IntWidth)
  | float (value : Nat) (endian : Endian) (width : FloatWidth)
  | str (value : String) (encoding : StringEncoding)
  | array (xs : List Value)
  | json (j : Json)

/-- A config entry (data.rs, struct Data): a topic and its value. -/
structure Data where
  topic : String
  data : Value

/-! ## Little-endian byte decomposition

Rust's to_le_bytes on a w-bit integer yields the w/8 base-256 digits of the
(two's-complement) bit pattern, least significant first; to_be_bytes is its
reverse; to_ne_bytes only occurs at single-byte width where order is moot. -/

/-- The k least-significant base-256 digits of v, least significant first. -/
def natToBytesLE : Nat → Nat → List Nat
  | 0, _ => []
  | k + 1, v => v % 256 :: natToBytesLE k (v / 256)

/-- Two's-complement bit pattern of an integer truncated to the given number
of bits (the `as iN` cast in the source). -/
def toTwos (bits : Nat) (v : Int) : Nat := (v % ((2 : Int) ^ bits)).toNat

/-- iN::to_le_bytes of (v as iN), for N = 8 * k bits. -/
def iLeBytes (k : Nat) (v : Int) : List Nat := natToBytesLE k (toTwos (8 * k) v)

/-- iN::to_be_bytes of (v as iN). -/
def iBeBytes (k : Nat) (v : Int) : List Nat := (iLeBytes k v).reverse

/-- uN::to_le_bytes of (v as uN): natToBytesLE already discards bits beyond
the k requested bytes, exactly as the unsigned cast does. -/
def uLeBytes (k : Nat) (v : Nat) : List Nat := natToBytesLE k v

/-- uN::to_be_bytes of (v as uN). -/
def uBeBytes (k : Nat) (v : Nat) : List Nat := (uLeBytes k v).reverse

/-! ## IEEE-754 bit-level conversions

Needed because the source narrows f64 to f32 (`*value as f32`) and converts
u64 / i64 JSON numbers to f64 during parsing.  Rust casts round to nearest,
ties to even. -/

/-- Right shift by n bits with round-to-nearest, ties-to-even. -/
def rshiftRNE (x n : Nat) : Nat :=
  if n = 0 then x
  else
    let q := x / 2 ^ n
    let r := x % 2 ^ n
    let half := 2 ^ (n - 1)
    if half < r then q + 1
    else if r = half then (if q % 2 = 1 then q + 1 else q)
    else q

/-- Round the real number (-1)^sign * M * 2^K to the IEEE-754 binary format
with mb mantissa bits and eb exponent bits (round to nearest, ties to even),
returning the bit pattern.  Overflow produces the infinity pattern. -/
def roundToFormat (mb eb : Nat) (sign : Bool) (M : Nat) (K : Int) : Nat :=
  let signBit := if sign then 2 ^ (mb + eb) else 0
  if M = 0 then signBit
  else
    let bias : Int := 2 ^ (eb - 1) - 1
    let L : Int := Nat.log2 M
    let e : Int := K + L
    if e < 1 - bias then
      let sh : Int := K - (1 - bias - mb)
      let sig := if 0 ≤ sh then M * 2 ^ sh.toNat else rshiftRNE M (-sh).toNat
      signBit + sig
    else
      let sh : Int := (mb : Int) - L
      let sig := if 0 ≤ sh then M * 2 ^ sh.toNat else rshiftRNE M (-sh).toNat
      let sig2 := if sig = 2 ^ (mb + 1) then 2 ^ mb else sig
      let e2 := if sig = 2 ^ (mb + 1) then e + 1 else e
      if bias < e2 then signBit + (2 ^ eb - 1) * 2 ^ mb
      else signBit + (e2 + bias).toNat * 2 ^ mb + (sig2 - 2 ^ mb)

/-- u64 → f64 bit pattern (`n as f64`). -/
def natToF64Bits (n : Nat) : Nat := roundToFormat 52 11 false n 0

/-- i64 → f64 bit pattern (`i as f64`). -/
def intToF64Bits (i : Int) : Nat :=
  if i < 0 then roundToFormat 52 11 true i.natAbs 0
  else roundToFormat 52 11 false i.natAbs 0

/-- f64 → f32 narrowing on bit patterns (`*value as f32`).  NaN payloads are
unspecified by the source language; the canonical quiet NaN is chosen. -/
def f32OfF64Bits (bits : Nat) : Nat :=
  let s := bits / 2 ^ 63 % 2 = 1
  let signBit := if s then 2 ^ 31 else 0
  let e : Nat := bits / 2 ^ 52 % 2 ^ 11
  let m : Nat := bits % 2 ^ 52
  if e = 2047 then
    if m = 0 then signBit + 255 * 2 ^ 23
    else signBit + 0x7FC00000
  else if e = 0 then roundToFormat 23 8 s m (-1074)
  else roundToFormat 23 8 s (2 ^ 52 + m) ((e : Int) - 1075)

/-- Bit pattern of the f64 a JSON number deserializes to. -/
def jnumToF64Bits : JNumber → Nat
  | JNumber.pos n => natToF64Bits n
  | JNumber.neg i => intToF64Bits i
  | JNumber.float bits => bits

/-! ## String encodings (data.rs, StringEncoding::encode) -/

/-- UTF-8 encoding of a single scalar value (str::as_bytes byte layout). -/
def utf8Char (c : Char) : List Nat :=
  let n := c.toNat
  if n < 0x80 then [n]
  else if n < 0x800 then [0xC0 + n / 0x40, 0x80 + n % 0x40]
  else if n < 0x10000 then
    [0xE0 + n / 0x1000, 0x80 + n / 0x40 % 0x40, 0x80 + n % 0x40]
  else
    [0xF0 + n / 0x40000, 0x80 + n / 0x1000 % 0x40, 0x80 + n / 0x40 % 0x40,
      0x80 + n % 0x40]

/-- The raw UTF-8 bytes of a string (value.as_bytes()). -/
def utf8Bytes (s : String) : List Nat := (s.data.map utf8Char).join

/-- UTF-16 code units of a single scalar value: one unit on the BMP, a
surrogate pair above it (str::encode_utf16 per character). -/
def utf16Char (c : Char) : List Nat :=
  let n := c.toNat
  if n < 0x10000 then [n]
  else [0xD800 + (n - 0x10000) / 0x400, 0xDC00 + (n - 0x10000) % 0x400]

/-- The UTF-16 code units of a string (str::encode_utf16). -/
def utf16Units (s : String) : List Nat := (s.data.map utf16Char).join

/-- u16::to_be_bytes. -/
def u16be (u : Nat) : List Nat := [u / 256 % 256, u % 256]

/-- u16::to_le_bytes. -/
def u16le (u : Nat) : List Nat := [u % 256, u / 256 % 256]

/-- StringEncoding::encode: UTF8 writes the raw bytes; the UTF-16 encodings
first write the 0xFEFF byte-order mark in their byte order, then every code
unit in that byte order. -/
def StringEncoding.encode (enc : StringEncoding) (s : String) : List Nat :=
  match enc with
  | StringEncoding.UTF8 => utf8Bytes s
  | StringEncoding.UTF16BE => u16be 0xFEFF ++ ((utf16Units s).map u16be).join
  | StringEncoding.UTF16LE => u16le 0xFEFF ++ ((utf16Units s).map u16le).join

/-! ## JSON text rendering (serde_json::to_writer on a serde_json::Value)

Modelled from the spec: the JSON writer itself and the repository's
dependency manifest (which fixes serde_json's map representation) are not
under src/; per the spec the document is "passed through unmodified in
structure (field order as received)", so object fields are rendered in
stored order.  Decimal formatting of finite doubles is modelled as the
exact decimal expansion of the binary value (the crate prints the shortest
round-tripping decimal; no claim evaluates float formatting). -/

/-- Decimal digit bytes of n, most significant first (fuel-structured so
that concrete instances reduce). -/
def natDecimalAux : Nat → Nat → List Nat
  | 0, _ => []
  | _ + 1, n => if n < 10 then [48 + n] else natDecimalAux n (n / 10) ++ [48 + n % 10]

def natDecimal (n : Nat) : List Nat := natDecimalAux (n + 1) n

/-- JSON string escaping: quote, backslash and control characters are
escaped (short forms for \b \t \n \f \r, \u00XX otherwise); everything else
is passed through as UTF-8. -/
def jsonEscapeChar (c : Char) : List Nat :=
  let n := c.toNat
  if n = 34 then [92, 34]
  else if n = 92 then [92, 92]
  else if n = 8 then [92, 98]
  else if n = 9 then [92, 116]
  else if n = 10 then [92, 110]
  else if n = 12 then [92, 102]
  else if n = 13 then [92, 114]
  else if n < 32 then
    [92, 117, 48, 48, 48 + n / 16, if n % 16 < 10 then 48 + n % 16 else 87 + n % 16]
  else utf8Char c

/-- A JSON string literal: quote, escaped characters, quote. -/
def renderJString (s : String) : List Nat :=
  34 :: (s.data.map jsonEscapeChar).join ++ [34]

/-- Exact decimal rendering of a finite double given as sign, integral
significand M and binary exponent K (value = ±M·2^K). -/
def renderFinite (sign : Bool) (M : Nat) (K : Int) : List Nat :=
  let signPre : List Nat := if sign then [45] else []
  if 0 ≤ K then signPre ++ natDecimal (M * 2 ^ K.toNat) ++ [46, 48]
  else
    let k := (-K).toNat
    let intPart := M / 2 ^ k
    let frac := M % 2 ^ k
    if frac = 0 then signPre ++ natDecimal intPart ++ [46, 48]
    else
      let digits := natDecimal (frac * 5 ^ k)
      let padded := List.replicate (k - digits.length) 48 ++ digits
      let trimmed := (padded.reverse.dropWhile (fun d => d = 48)).reverse
      signPre ++ natDecimal intPart ++ [46] ++ trimmed

/-- Rendering of a double bit pattern; serde_json writes non-finite floats
as null. -/
def renderF64 (bits : Nat) : List Nat :=
  let sign := bits / 2 ^ 63 % 2 = 1
  let e : Nat := bits / 2 ^ 52 % 2 ^ 11
  let m : Nat := bits % 2 ^ 52
  if e = 2047 then [110, 117, 108, 108]
  else if e = 0 then
    if m = 0 then (if sign then [45, 48, 46, 48] else [48, 46, 48])
    else renderFinite sign m (-1074)
  else renderFinite sign (2 ^ 52 + m) ((e : Int) - 1075)

/-- Rendering of a JSON number. -/
def renderJNumber : JNumber → List Nat
  | JNumber.pos n => natDecimal n
  | JNumber.neg i => 45 :: natDecimal i.natAbs
  | JNumber.float bits => renderF64 bits

mutual

/-- Compact JSON text of a document as UTF-8 bytes, object fields in stored
order. -/
def jsonRender : Json → List Nat
  | Json.null => [110, 117, 108, 108]
  | Json.bool true => [116, 114, 117, 101]
  | Json.bool false => [102, 97, 108, 115, 101]
  | Json.num n => renderJNumber n
  | Json.str s => renderJString s
  | Json.arr xs => 91 :: jsonRenderArr xs ++ [93]
  | Json.obj fs => 123 :: jsonRenderObj fs ++ [125]

/-- Comma-separated rendering of array elements. -/
def jsonRenderArr : List Json → List Nat
  | [] => []
  | [x] => jsonRender x
  | x :: xs => jsonRender x ++ [44] ++ jsonRenderArr xs

/-- Comma-separated rendering of object fields, in list order. -/
def jsonRenderObj : List (String × Json) → List Nat
  | [] => []
  | [(k, v)] => renderJString k ++ [58] ++ jsonRender v
  | (k, v) :: fs => renderJString k ++ [58] ++ jsonRender v ++ [44] ++ jsonRenderObj fs

end

/-! ## The serializer (data.rs, Value::serialize)

The sink is an infallible byte buffer (main.rs serializes into a Vec), so
the io::Result is always Ok and the function is modelled as the list of
bytes written. -/

mutual

/-- Value::serialize: the bytes written to the sink, following the source's
match arms. -/
def Value.serialize : Value → List Nat
  | Value.bool b => [if b then 1 else 0]
  | Value.int v endian width =>
    match endian, width with
    | _, IntWidth.Eight => iLeBytes 1 v
    | Endian.LittleEndian, IntWidth.Sixteen => iLeBytes 2 v
    | Endian.LittleEndian, IntWidth.Thirtytwo => iLeBytes 4 v
    | Endian.LittleEndian, IntWidth.Sixtyfour => iLeBytes 8 v
    | Endian.BigEndian, IntWidth.Sixteen => iBeBytes 2 v
    | Endian.BigEndian, IntWidth.Thirtytwo => iBeBytes 4 v
    | Endian.BigEndian, IntWidth.Sixtyfour => iBeBytes 8 v
  | Value.uint v endian width =>
    match endian, width with
    | _, IntWidth.Eight => uLeBytes 1 v
    | Endian.LittleEndian, IntWidth.Sixteen => uLeBytes 2 v
    | Endian.LittleEndian, IntWidth.Thirtytwo => uLeBytes 4 v
    | Endian.LittleEndian, IntWidth.Sixtyfour => uLeBytes 8 v
    | Endian.BigEndian, IntWidth.Sixteen => uBeBytes 2 v
    | Endian.BigEndian, IntWidth.Thirtytwo => uBeBytes 4 v
    | Endian.BigEndian, IntWidth.Sixtyfour => uBeBytes 8 v
  | Value.float v endian width =>
    match endian, width with
    | Endian.LittleEndian, FloatWidth.Thirtytwo => uLeBytes 4 (f32OfF64Bits v)
    | Endian.LittleEndian, FloatWidth.Sixtyfour => uLeBytes 8 v
    | Endian.BigEndian, FloatWidth.Thirtytwo => uBeBytes 4 (f32OfF64Bits v)
    | Endian.BigEndian, FloatWidth.Sixtyfour => uBeBytes 8 v
  | Value.str s enc => StringEncoding.encode enc s
  | Value.array xs => Value.serializeList xs
  | Value.json j => jsonRender j

/-- The Array arm's loop: each element serialized in order into the same
writer, i.e. the concatenation of the element serializations. -/
def Value.serializeList : List Value → List Nat
  | [] => []
  | v :: vs => Value.serialize v ++ Value.serializeList vs

end

/-! ## Config parsing (serde untagged deserialization of Value, and Data)

The derive on Value is #[serde(untagged)]: the document is tested against
the variants in declared order (Bool, UInt, Int, Float, String, Array,
JSON) and the first variant that deserializes successfully wins; the final
JSON variant accepts any document.  Struct variants deserialize only from
objects; unknown fields are ignored, duplicated recognized fields are
errors, missing fields with #[serde(default)] take their Default value.
Unit enums (Endian, IntWidth, FloatWidth, StringEncoding) deserialize from
their variant-name strings, including the numeric-string aliases on the
width enums; a JSON number is not a valid variant identifier. -/

/-- Occurrences of a recognized field: none on duplicates (serde's
duplicate-field error), some none when absent, some (some v) when unique. -/
def getField (fields : List (String × Json)) (key : String) : Option (Option Json) :=
  match fields.filter (fun p => p.1 == key) with
  | [] => some none
  | [p] => some (some p.2)
  | _ => none

/-- A required field: present exactly once and accepted by the field's
deserializer. -/
def reqField (α : Type) (fields : List (String × Json)) (key : String)
    (conv : Json → Option α) : Option α :=
  match getField fields key with
  | some (some j) => conv j
  | _ => none

/-- An optional #[serde(default)] field: absent yields the default, present
exactly once it must be accepted by the field's deserializer. -/
def optField (α : Type) (fields : List (String × Json)) (key : String)
    (dflt : α) (conv : Json → Option α) : Option α :=
  match getField fields key with
  | some none => some dflt
  | some (some j) => conv j
  | none => none

/-- u64 deserialization: only a non-negative JSON integer. -/
def asU64 : Json → Option Nat
  | Json.num (JNumber.pos n) => some n
  | _ => none

/-- i64 deserialization: an integer within the signed 64-bit range. -/
def asI64 : Json → Option Int
  | Json.num (JNumber.pos n) => if n < 2 ^ 63 then some (n : Int) else none
  | Json.num (JNumber.neg i) => some i
  | _ => none

/-- f64 deserialization: any JSON number, integers converted by rounding. -/
def asF64 : Json → Option Nat
  | Json.num x => some (jnumToF64Bits x)
  | _ => none

/-- String deserialization. -/
def asStr : Json → Option String
  | Json.str s => some s
  | _ => none

/-- Endian deserialization from its variant-name string. -/
def asEndian : Json → Option Endian
  | Json.str "LittleEndian" => some Endian.LittleEndian
  | Json.str "BigEndian" => some Endian.BigEndian
  | _ => none

/-- IntWidth deserialization: variant names and their string aliases. -/
def asIntWidth : Json → Option IntWidth
  | Json.str "Eight" => some IntWidth.Eight
  | Json.str "8" => some IntWidth.Eight
  | Json.str "Sixteen" => some IntWidth.Sixteen
  | Json.str "16" => some IntWidth.Sixteen
  | Json.str "Thirtytwo" => some IntWidth.Thirtytwo
  | Json.str "32" => some IntWidth.Thirtytwo
  | Json.str "Sixtyfour" => some IntWidth.Sixtyfour
  | Json.str "64" => some IntWidth.Sixtyfour
  | _ => none

/-- FloatWidth deserialization: variant names and their string aliases. -/
def asFloatWidth : Json → Option FloatWidth
  | Json.str "Thirtytwo" => some FloatWidth.Thirtytwo
  | Json.str "32" => some FloatWidth.Thirtytwo
  | Json.str "Sixtyfour" => some FloatWidth.Sixtyfour
  | Json.str "64" => some FloatWidth.Sixtyfour
  | _ => none

/-- StringEncoding deserialization from its variant-name string. -/
def asEncoding : Json → Option StringEncoding
  | Json.str "UTF8" => some StringEncoding.UTF8
  | Json.str "UTF16BE" => some StringEncoding.UTF16BE
  | Json.str "UTF16LE" => some StringEncoding.UTF16LE
  | _ => none

/-- The UInt struct variant tried on an object's fields. -/
def tryUInt (fields : List (String × Json)) : Option Value :=
  (reqField Nat fields "value" asU64).bind fun n =>
    (optField Endian fields "endian" Endian.default asEndian).bind fun endian =>
      (optField IntWidth fields "width" IntWidth.default asIntWidth).map fun width =>
        Value.uint n endian width

/-- The Int struct variant tried on an object's fields. -/
def tryInt (fields : List (String × Json)) : Option Value :=
  (reqField Int fields "value" asI64).bind fun v =>
    (optField Endian fields "endian" Endian.default asEndian).bind fun endian =>
      (optField IntWidth fields "width" IntWidth.default asIntWidth).map fun width =>
        Value.int v endian width

/-- The Float struct variant tried on an object's fields. -/
def tryFloat (fields : List (String × Json)) : Option Value :=
  (reqField Nat fields "value" asF64).bind fun bits =>
    (optField Endian fields "endian" Endian.default asEndian).bind fun endian =>
      (optField FloatWidth fields "width" FloatWidth.default asFloatWidth).map fun width =>
        Value.float bits endian width

/-- The String struct variant tried on an object's fields. -/
def tryStr (fields : List (String × Json)) : Option Value :=
  (reqField String fields "value" asStr).bind fun s =>
    (optField StringEncoding fields "encoding" StringEncoding.default asEncoding).map
      fun enc => Value.str s enc

mutual

/-- Untagged resolution of a Value: variants in declared order, first
structurally-valid match wins, the JSON variant accepting anything.  A bool
matches Bool immediately; only an object can match the struct variants;
only an array matches Array; everything else falls through to JSON. -/
def parseValue : Json → Value
  | Json.bool b => Value.bool b
  | Json.obj fields =>
    match tryUInt fields with
    | some v => v
    | none =>
      match tryInt fields with
      | some v => v
      | none =>
        match tryFloat fields with
        | some v => v
        | none =>
          match tryStr fields with
          | some v => v
          | none => Value.json (Json.obj fields)
  | Json.arr xs => Value.array (parseValues xs)
  | j => Value.json j

/-- Element-wise Value resolution inside an Array variant. -/
def parseValues : List Json → List Value
  | [] => []
  | x :: xs => parseValue x :: parseValues xs

end

/-- Deserialization of one Data entry: an object with a required string
field topic and a required data field holding a Value. -/
def parseData : Json → Except String Data
  | Json.obj fields =>
    match getField fields "topic" with
    | none => Except.error "duplicate field topic"
    | some none => Except.error "missing field topic"
    | some (some tj) =>
      match asStr tj with
      | none => Except.error "invalid type for field topic"
      | some t =>
        match getField fields "data" with
        | none => Except.error "duplicate field data"
        | some none => Except.error "missing field data"
        | some (some dj) => Except.ok { topic := t, data := parseValue dj }
  | _ => Except.error "invalid type: expected struct Data"

/-- serde_json::from_str::<Vec<Data>> on an already-lexed document: the top
level must be an array and every element a valid Data entry. -/
def parseConfig : Json → Except String (List Data)
  | Json.arr xs => xs.mapM parseData
  | _ => Except.error "invalid type: expected a sequence"

/-- Full text parse: file content that is not valid JSON text at all is a
syntax error, otherwise the document is deserialized as Vec<Data>. -/
def parseText : Option Json → Except String (List Data)
  | none => Except.error "JSON text error"
  | some j => parseConfig j

/-! ## The dataset watcher (main.rs, data_watcher) and sender

One loop iteration of data_watcher as a pure step function.  Inputs that
the environment supplies during the iteration: the fs::metadata outcome
(none models a metadata error, which the ? operator propagates, killing the
task) and, when a reload is triggered, the fs::read_to_string outcome
(ReadOutcome.fail models a read error, hit by the continue branch; the
content is an Option Json, none modelling text that fails JSON lexing). -/

inductive ReadOutcome
  | fail
  | ok (content : Option Json)

/-- Watcher task state: the recorded modification timestamp and the shared
dataset cell the watch channel currently holds. -/
structure WatcherState where
  modified : Nat
  cell : List Data

/-- One iteration of the data_watcher loop.  Except.error models the task
terminating with an error; Except.ok carries the state at the next tick. -/
def dataWatcherStep (st : WatcherState) (meta : Option Nat) (read : ReadOutcome) :
    Except String WatcherState :=
  match meta with
  | none => Except.error "metadata error"
  | some lastMod =>
    if st.modified < lastMod then
      match read with
      | ReadOutcome.fail => Except.ok st
      | ReadOutcome.ok content =>
        match parseText content with
        | Except.ok vals => Except.ok { modified := lastMod, cell := vals }
        | Except.error _ => Except.ok st
    else Except.ok st

/-- The initial value of the shared dataset cell (main.rs line 126:
watch::channel(vec![])). -/
def initialDataset : List Data := []

/-- One iteration of the sender loop over a dataset snapshot: one outbound
(topic, payload) message per entry, in dataset order. -/
def senderTick (vals : List Data) : List (String × List Nat) :=
  vals.map (fun d => (d.topic, d.data.serialize))

/-- Specification-side description of the wire format of a W-bit integer
with bit pattern m: W/8 base-256 digits, least significant first for
LittleEndian and most significant first for BigEndian. -/
def wireBytes (e : Endian) (k m : Nat) : List Nat :=
  match e with
  | Endian.LittleEndian => (List.range k).map (fun i => m / 256 ^ i % 256)
  | Endian.BigEndian => ((List.range k).map (fun i => m / 256 ^ i % 256)).reverse

/-! ## Byte decomposition lemmas -/

theorem natToBytesLE_length (k : Nat) : ∀ v, (natToBytesLE k v).length = k := by
  induction k with
  | zero => intro v; rfl
  | succ k ih => intro v; simp [natToBytesLE, ih]

theorem natToBytesLE_eq_range (k : Nat) :
    ∀ v, natToBytesLE k v = (List.range k).map (fun i => v / 256 ^ i % 256) := by
  induction k with
  | zero => intro v; rfl
  | succ k ih =>
    intro v
    rw [natToBytesLE, List.range_succ_eq_map, List.map_cons, List.map_map, ih (v / 256)]
    congr 1
    · simp
    · apply List.map_congr_left
      intro i _
      simp [Function.comp, Nat.div_div_eq_div_mul, pow_succ']

theorem natToBytesLE_mod (k : Nat) :
    ∀ v, natToBytesLE k (v % 256 ^ k) = natToBytesLE k v := by
  induction k with
  | zero => intro v; rfl
  | succ k ih =>
    intro v
    rw [natToBytesLE, natToBytesLE]
    congr 1
    · exact Nat.mod_mod_of_dvd v (dvd_pow_self 256 (Nat.succ_ne_zero k))
    · rw [pow_succ' 256 k, Nat.mod_mul_right_div_self, ih (v / 256)]

/-! ## Claim theorems -/

/-- Claim C2: for every Int or UInt value, width W and endian E, the
serializer silently truncates the magnitude modulo 2^W (two's complement
for Int) and writes exactly W/8 bytes in byte order E; in particular Int
300 at width Eight gives the single byte 0x2C and Int -1 at width Sixteen,
LittleEndian gives [0xFF, 0xFF]. -/
theorem int_uint_truncation_mod_width :
    (∀ (v : Int) (e : Endian) (w : IntWidth),
        Value.serialize (Value.int v e w) =
          wireBytes e w.bytes ((v % ((2 : Int) ^ (8 * w.bytes))).toNat))
    ∧ (∀ (n : Nat) (e : Endian) (w : IntWidth),
        Value.serialize (Value.uint n e w) =
          wireBytes e w.bytes (n % 2 ^ (8 * w.bytes)))
    ∧ Value.serialize (Value.int 300 Endian.BigEndian IntWidth.Eight) = [0x2C]
    ∧ Value.serialize (Value.int (-1) Endian.LittleEndian IntWidth.Sixteen) = [0xFF, 0xFF] := by
  refine ⟨?_, ?_, by rfl, by rfl⟩
  · intro v e w
    cases e <;> cases w <;>
      simp [Value.serialize, iLeBytes, iBeBytes, toTwos, IntWidth.bytes, wireBytes,
        natToBytesLE_eq_range, List.range_succ]
  · intro n e w
    cases e <;> cases w <;>
      · simp only [Value.serialize, uLeBytes, uBeBytes, IntWidth.bytes, wireBytes]
        rw [← natToBytesLE_mod, natToBytesLE_eq_range]
        norm_num [List.range_succ]

/-- Claim C6: for every Int or UInt value and every width/endian
combination the output is exactly width/8 bytes long, and at width Eight
the byte written is the same for LittleEndian and BigEndian. -/
theorem int_uint_length_and_width8 :
    (∀ (v : Int) (e : Endian) (w : IntWidth),
        (Value.serialize (Value.int v e w)).length = w.bytes)
    ∧ (∀ (n : Nat) (e : Endian) (w : IntWidth),
        (Value.serialize (Value.uint n e w)).length = w.bytes)
    ∧ (∀ v : Int,
        Value.serialize (Value.int v Endian.LittleEndian IntWidth.Eight) =
          Value.serialize (Value.int v Endian.BigEndian IntWidth.Eight))
    ∧ (∀ n : Nat,
        Value.serialize (Value.uint n Endian.LittleEndian IntWidth.Eight) =
          Value.serialize (Value.uint n Endian.BigEndian IntWidth.Eight)) := by
  refine ⟨?_, ?_, fun v => rfl, fun n => rfl⟩
  · intro v e w
    cases e <;> cases w <;>
      simp [Value.serialize, iLeBytes, iBeBytes, IntWidth.bytes, natToBytesLE_length]
  · intro n e w
    cases e <;> cases w <;>
      simp [Value.serialize, uLeBytes, uBeBytes, IntWidth.bytes, natToBytesLE_length]

theorem serializeList_eq_join (xs : List Value) :
    Value.serializeList xs = (xs.map Value.serialize).join := by
  induction xs with
  | nil => rfl
  | cons v vs ih => simp [Value.serializeList, ih]

/-- Claim C7: the serialization of an Array value is the concatenation, in
sequence order, of the serializations of its elements, with no length
prefix or separator; the empty array gives zero bytes and
[true, (value 1, width 8)] gives [0x01, 0x01]. -/
theorem array_serialization_is_concat :
    (∀ xs : List Value,
        Value.serialize (Value.array xs) = (xs.map Value.serialize).join)
    ∧ Value.serialize (Value.array []) = []
    ∧ Value.serialize
        (Value.array [Value.bool true, Value.uint 1 Endian.BigEndian IntWidth.Eight]) =
        [0x01, 0x01] := by
  refine ⟨fun xs => ?_, rfl, rfl⟩
  rw [show Value.serialize (Value.array xs) = Value.serializeList xs from rfl]
  exact serializeList_eq_join xs

/-- Claim C5: UTF8 writes exactly the raw UTF-8 bytes with no byte-order
mark; UTF16BE / UTF16LE first write the 2-byte mark 0xFEFF in their byte
order and then every UTF-16 code unit (surrogate pairs above the BMP) in
that byte order; "A" under UTF16LE gives [0xFF, 0xFE, 0x41, 0x00] and
under UTF8 gives [0x41]. -/
theorem string_encoding_bytes :
    (∀ s, StringEncoding.encode StringEncoding.UTF8 s = utf8Bytes s)
    ∧ (∀ s, StringEncoding.encode StringEncoding.UTF16BE s =
        [0xFE, 0xFF] ++ ((utf16Units s).map u16be).join)
    ∧ (∀ s, StringEncoding.encode StringEncoding.UTF16LE s =
        [0xFF, 0xFE] ++ ((utf16Units s).map u16le).join)
    ∧ StringEncoding.encode StringEncoding.UTF16LE "A" = [0xFF, 0xFE, 0x41, 0x00]
    ∧ StringEncoding.encode StringEncoding.UTF8 "A" = [0x41]
    ∧ StringEncoding.encode StringEncoding.UTF16BE "𝄞" =
        [0xFE, 0xFF, 0xD8, 0x34, 0xDD, 0x1E] :=
  ⟨fun _ => rfl, fun _ => rfl, fun _ => rfl, rfl, rfl, rfl⟩

/-- Claim C8: an Opaque-JSON value serializes to the JSON text encoding of
the document with its structure passed through unmodified, object fields
rendered in the order they are held; witnessed on a two-field object whose
keys are not in sorted order, which round-trips as the bytes of the text
with "b" still before "a", and on an array. -/
theorem json_passthrough_field_order :
    (∀ j, Value.serialize (Value.json j) = jsonRender j)
    ∧ jsonRender (Json.obj [("b", Json.num (JNumber.pos 1)), ("a", Json.num (JNumber.pos 2))]) =
        [123, 34, 98, 34, 58, 49, 44, 34, 97, 34, 58, 50, 125]
    ∧ jsonRender (Json.arr [Json.bool true, Json.null]) =
        [91, 116, 114, 117, 101, 44, 110, 117, 108, 108, 93] := by
  refine ⟨fun j => rfl, ?_, ?_⟩ <;>
    simp [jsonRender, jsonRenderObj, jsonRenderArr, renderJString, renderJNumber,
      natDecimal, natDecimalAux, jsonEscapeChar, utf8Char]

/-- Claim C10: the shared dataset cell starts out holding the empty
dataset, and a publisher tick over it serializes nothing and submits zero
outbound messages. -/
theorem initial_dataset_publishes_nothing :
    initialDataset = ([] : List Data) ∧ senderTick initialDataset = [] :=
  ⟨rfl, rfl⟩

/-- Claim C1: a config value that is a JSON object with one numeric field
value (a non-negative integer literal) and no other fields resolves to the
UInt variant with the default parameters, not to Int, Float or Opaque-JSON:
Bool fails on an object, UInt is the first struct variant tried and it
matches. -/
theorem value_object_resolves_to_uint (n : Nat) (h : n < 2 ^ 64) :
    parseValue (Json.obj [("value", Json.num (JNumber.pos n))]) =
      Value.uint n Endian.BigEndian IntWidth.Sixtyfour := rfl

theorem value_object_resolves_to_uint_witness :
    5 < 2 ^ 64 ∧
      parseValue (Json.obj [("value", Json.num (JNumber.pos 5))]) =
        Value.uint 5 Endian.BigEndian IntWidth.Sixtyfour :=
  ⟨by norm_num, value_object_resolves_to_uint 5 (by norm_num)⟩

/-- Claim C3 counterexample: the entry whose value object is
(value 5, width 7) parses successfully — as the Opaque-JSON variant —
rather than failing with a ParseError as the claim states. -/
theorem wrong_typed_field_parses_counterexample :
    parseConfig
        (Json.arr [Json.obj [("topic", Json.str "t"),
          ("data", Json.obj [("value", Json.num (JNumber.pos 5)),
            ("width", Json.num (JNumber.pos 7))])]]) =
      Except.ok [Data.mk "t"
        (Value.json (Json.obj [("value", Json.num (JNumber.pos 5)),
          ("width", Json.num (JNumber.pos 7))]))] := rfl

/-- Claim C3 amended: a value object with a numeric width field (a wrong
type for every recognized width encoding, e.g. width 7) makes all the
structured variants fail, so the value is accepted under the catch-all
Opaque-JSON variant; no ParseError is produced. -/
theorem wrong_typed_field_falls_through_to_json (n m : Nat) :
    parseValue (Json.obj [("value", Json.num (JNumber.pos n)),
        ("width", Json.num (JNumber.pos m))]) =
      Value.json (Json.obj [("value", Json.num (JNumber.pos n)),
        ("width", Json.num (JNumber.pos m))]) := by
  by_cases hn : (n : Nat) < 2 ^ 63 <;>
    simp [parseValue, tryUInt, tryInt, tryFloat, tryStr, reqField, optField, getField,
      asU64, asI64, asF64, asStr, asEndian, asIntWidth, asFloatWidth, hn]

/-- Claim C4 counterexample: with recorded timestamp 3, observed timestamp
5 and content that fails to parse, the watcher step leaves the recorded
timestamp at 3 instead of updating it to the observed 5 — the claim's
"updated regardless of parse outcome" is false, so the file will be
re-read on every later poll tick. -/
theorem watcher_timestamp_counterexample :
    dataWatcherStep { modified := 3, cell := [] } (some 5)
        (ReadOutcome.ok (some (Json.num (JNumber.pos 3)))) =
      Except.ok { modified := 3, cell := [] } := rfl

/-- Claim C4 amended: after a reload attempt triggered by a newer observed
timestamp, the recorded timestamp is updated only when the parse succeeds;
on parse failure both the timestamp and the dataset are left unchanged, so
a file that is touched once but remains malformed is re-read and re-parsed
on every later poll tick. -/
theorem watcher_timestamp_updated_only_on_success (st : WatcherState)
    (lastMod : Nat) (c : Option Json) (htrig : st.modified < lastMod) :
    (∀ e, parseText c = Except.error e →
        dataWatcherStep st (some lastMod) (ReadOutcome.ok c) = Except.ok st)
    ∧ (∀ vals, parseText c = Except.ok vals →
        dataWatcherStep st (some lastMod) (ReadOutcome.ok c) =
          Except.ok { modified := lastMod, cell := vals }) := by
  constructor
  · intro e he
    simp [dataWatcherStep, htrig, he]
  · intro vals hv
    simp [dataWatcherStep, htrig, hv]

theorem watcher_timestamp_updated_only_on_success_witness :
    0 < 1 ∧
      dataWatcherStep { modified := 0, cell := [] } (some 1) (ReadOutcome.ok none) =
        Except.ok { modified := 0, cell := [] } :=
  ⟨by norm_num,
    (watcher_timestamp_updated_only_on_success { modified := 0, cell := [] } 1 none
      (by norm_num)).1 "JSON text error" rfl⟩

/-- Claim C9: whenever a watcher step reads content that fails to parse,
the shared dataset cell is left unchanged and the step returns normally
(the task keeps looping rather than terminating). -/
theorem watcher_parse_failure_keeps_cell (st : WatcherState) (lastMod : Nat)
    (c : Option Json) (e : String) (hfail : parseText c = Except.error e) :
    (dataWatcherStep st (some lastMod) (ReadOutcome.ok c)).map WatcherState.cell =
      Except.ok st.cell := by
  by_cases h : st.modified < lastMod <;>
    simp [dataWatcherStep, h, hfail, Except.map]

theorem watcher_parse_failure_keeps_cell_witness :
    parseText (some (Json.num (JNumber.pos 3))) =
        Except.error "invalid type: expected a sequence" ∧
      (dataWatcherStep { modified := 0, cell := [] } (some 2)
          (ReadOutcome.ok (some (Json.num (JNumber.pos 3))))).map WatcherState.cell =
        Except.ok [] :=
  ⟨rfl,
    watcher_parse_failure_keeps_cell { modified := 0, cell := [] } 2
      (some (Json.num (JNumber.pos 3))) "invalid type: expected a sequence" rfl⟩
